import Mathlib

/-!
Verification of the `simple-blog-app` Express server (src/example-nodejs-app/app.js)
against its natural-language specification.

The server is shallowly embedded: each route handler becomes a pure Lean function
from an explicit process state (the parts of the Node.js runtime the code reads:
`process.version`, `process.env`, the current wall-clock time, and the process
start time) to a `Response` value.  JavaScript's `x || d` defaulting on
environment variables and the `Date.prototype.toISOString` output format are
modelled explicitly below.
-/

namespace BlogApp

/-- A calendar timestamp, the data `new Date()` exposes to `toISOString`
(year, month, day, hour, minute, second, millisecond). -/
structure DateTime where
  year : Nat
  month : Nat
  day : Nat
  hour : Nat
  minute : Nat
  second : Nat
  millis : Nat
deriving DecidableEq

/-- The decimal digit character for `n % 10`. -/
def digitChar (n : Nat) : Char := Char.ofNat (48 + n % 10)

/-- Model of JavaScript `Date.prototype.toISOString`: the 24-character
`YYYY-MM-DDTHH:mm:ss.sssZ` rendering of a `DateTime` (faithful for the
in-range field values a real clock produces).  Separator characters are
given by code point: 45 `-`, 84 `T`, 58 `:`, 46 `.`, 90 `Z`. -/
def toISOString (d : DateTime) : String :=
  ⟨[digitChar (d.year / 1000), digitChar (d.year / 100), digitChar (d.year / 10),
    digitChar d.year, Char.ofNat 45,
    digitChar (d.month / 10), digitChar d.month, Char.ofNat 45,
    digitChar (d.day / 10), digitChar d.day, Char.ofNat 84,
    digitChar (d.hour / 10), digitChar d.hour, Char.ofNat 58,
    digitChar (d.minute / 10), digitChar d.minute, Char.ofNat 58,
    digitChar (d.second / 10), digitChar d.second, Char.ofNat 46,
    digitChar (d.millis / 100), digitChar (d.millis / 10), digitChar d.millis,
    Char.ofNat 90]⟩

/-- Is `c` one of the ten decimal digit characters? -/
def isDigitChar (c : Char) : Bool := 48 ≤ c.toNat && c.toNat ≤ 57

/-- Is `c` the character with code point `k`? -/
def isCh (k : Nat) (c : Char) : Bool := c.toNat = k

/-- Check a character list against a list of per-position character classes
(equal lengths, each position accepted by its class). -/
def checkShape : List (Char → Bool) → List Char → Bool
  | [], [] => true
  | p :: ps, c :: cs => p c && checkShape ps cs
  | _, _ => false

/-- The per-position shape of an ISO-8601 UTC timestamp
`YYYY-MM-DDTHH:mm:ss.sssZ`. -/
def isoShape : List (Char → Bool) :=
  [isDigitChar, isDigitChar, isDigitChar, isDigitChar, isCh 45,
   isDigitChar, isDigitChar, isCh 45, isDigitChar, isDigitChar, isCh 84,
   isDigitChar, isDigitChar, isCh 58, isDigitChar, isDigitChar, isCh 58,
   isDigitChar, isDigitChar, isCh 46, isDigitChar, isDigitChar, isDigitChar,
   isCh 90]

/-- Decidable recogniser for the ISO-8601 timestamp format produced by
JavaScript's `toISOString` (`YYYY-MM-DDTHH:mm:ss.sssZ`). -/
def isIso8601 (s : String) : Bool := checkShape isoShape s.data

/-- The field values a real clock produces (what `new Date()` can hold),
so that the model `toISOString` agrees with the runtime's rendering. -/
def validDT (d : DateTime) : Prop :=
  d.year ≤ 9999 ∧ 1 ≤ d.month ∧ d.month ≤ 12 ∧ 1 ≤ d.day ∧ d.day ≤ 31 ∧
    d.hour ≤ 23 ∧ d.minute ≤ 59 ∧ d.second ≤ 59 ∧ d.millis ≤ 999

instance (d : DateTime) : Decidable (validDT d) := by
  unfold validDT; infer_instance

/-- The process environment: `process.env`, a partial map from variable
names to string values. -/
def Env : Type := String → Option String

/-- JavaScript `v || dflt` where `v` is `process.env.X` (a string or
`undefined`): the default applies exactly when the variable is unset or its
value is the empty string (the only falsy string). -/
def envOr (v : Option String) (dflt : String) : String :=
  match v with
  | some s => if s = "" then dflt else s
  | none => dflt

/-- The value of `const PORT = process.env.PORT || 3000` (app.js line 4):
a string when the environment variable is set and non-empty, otherwise the
number `3000`. -/
inductive PortVal where
  | str (s : String)
  | num (n : Nat)
deriving DecidableEq

/-- `const PORT = process.env.PORT || 3000` (app.js line 4). -/
def PORT (e : Env) : PortVal :=
  match e "PORT" with
  | some s => if s = "" then .num 3000 else .str s
  | none => .num 3000

/-- Accumulating decimal reading of a character list: `none` as soon as a
non-digit appears. -/
def decValue : List Char → Nat → Option Nat
  | [], acc => some acc
  | c :: cs, acc =>
    if 48 ≤ c.toNat ∧ c.toNat ≤ 57 then decValue cs (acc * 10 + (c.toNat - 48))
    else none

/-- The numeric value of a non-empty all-digit decimal string, else `none`. -/
def strToNat? (s : String) : Option Nat :=
  match s.data with
  | [] => none
  | l => decValue l 0

/-- Modelled from the Node.js runtime: the TCP port `app.listen(PORT)` binds.
`listen` coerces a decimal-numeric string to that port number; a `Nat` is
used directly; a non-numeric string is not a TCP port at all (Node treats
it as a pipe name), so no port is bound. -/
def boundPort : PortVal → Option Nat
  | .num n => some n
  | .str s => strToNat? s

/-- The ambient process state a request handler can read: `process.version`,
`process.env` at the time of the request, the current wall-clock time (as a
calendar value for `new Date()` and as seconds for uptime arithmetic), and
the process start time. -/
structure ProcState where
  nodeVersion : String
  env : Env
  now : DateTime
  nowSec : ℚ
  startSec : ℚ

/-- `process.uptime()`: seconds elapsed since the process started. -/
def processUptime (st : ProcState) : ℚ := st.nowSec - st.startSec

/-- `process.env.NODE_ENV || 'development'` as read inside the handlers
(app.js lines 42 and 71). -/
def environmentOf (st : ProcState) : String :=
  envOr (st.env "NODE_ENV") "development"

/-- A JSON field value as used by the two API routes (strings and numbers). -/
inductive JVal where
  | s (x : String)
  | n (x : ℚ)
deriving DecidableEq

/-- The Content-Type a response is sent with: `text/html` (Express
`res.send` on a string), `application/json` (`res.json`), or inferred by
the static middleware from the file. -/
inductive CType where
  | html
  | json
  | inferred
deriving DecidableEq

/-- A response body: an HTML/text page, or a JSON object given as its
ordered field list. -/
inductive Body where
  | page (x : String)
  | fields (l : List (String × JVal))
deriving DecidableEq

/-- An HTTP response as the embedding observes it. -/
structure Response where
  status : Nat
  contentType : CType
  body : Body
deriving DecidableEq

/-- Request methods (only GET is routed by the app). -/
inductive Method where
  | get
  | post
  | put
  | delete
  | head
  | other
deriving DecidableEq

/-- The name of a method, for the framework's default 404 body. -/
def methodName : Method → String
  | .get => "GET"
  | .post => "POST"
  | .put => "PUT"
  | .delete => "DELETE"
  | .head => "HEAD"
  | .other => "OTHER"

/-- An inbound HTTP request: its method and path. -/
structure Request where
  method : Method
  path : String

/-- HTML template chunk of `GET /` (app.js lines 13-54): from the start of
the template literal to just after `<title>`. -/
def hA : String :=
  "\n        <!DOCTYPE html>\n        <html lang=\"en\">\n        <head>\n            <meta charset=\"UTF-8\">\n            <meta name=\"viewport\" content=\"width=device-width, initial-scale=1.0\">\n            <title>"

/-- The application title, as it appears in the `<title>` element. -/
def appTitle : String := "Simple Blog App"

/-- HTML template chunk: from after the title to just before the
`${process.version}` interpolation. -/
def hB : String :=
  "</title>\n            <style>\n                body \x7b font-family: Arial, sans-serif; margin: 40px; background: #f5f5f5; \x7d\n                .container \x7b max-width: 800px; margin: 0 auto; background: white; padding: 30px; border-radius: 10px; box-shadow: 0 2px 10px rgba(0,0,0,0.1); \x7d\n                .header \x7b text-align: center; color: #333; margin-bottom: 30px; \x7d\n                .info \x7b background: #e8f4fd; padding: 15px; border-radius: 5px; margin: 15px 0; \x7d\n                .success \x7b background: #d4edda; color: #155724; padding: 15px; border-radius: 5px; margin: 15px 0; \x7d\n            </style>\n        </head>\n        <body>\n            <div class=\"container\">\n                <div class=\"header\">\n                    <h1>🚀 Simple Blog App</h1>\n                    <p>Node.js Application deployed via GitHub Actions</p>\n                </div>\n                \n                <div class=\"success\">\n                    ✅ Application is running successfully!\n                </div>\n                \n                <div class=\"info\">\n                    <h3>System Information</h3>\n                    <p><strong>Node.js Version:</strong> "

/-- HTML template chunk: between the `${process.version}` interpolation and
the Environment label. -/
def hC : String := "</p>\n                    <p>"

/-- The Environment label immediately preceding the
`${process.env.NODE_ENV || 'development'}` interpolation. -/
def hEnvTag : String := "<strong>Environment:</strong> "

/-- HTML template chunk: the closing `</p>` right after the environment
value. -/
def hD : String := "</p>"

/-- HTML template chunk: between `hD` and the `${new Date().toISOString()}`
interpolation. -/
def hE : String := "\n                    <p><strong>Timestamp:</strong> "

/-- HTML template chunk: from after the timestamp interpolation to the end
of the template literal. -/
def hF : String :=
  "</p>\n                </div>\n                \n                <div class=\"info\">\n                    <h3>API Endpoints</h3>\n                    <p><a href=\"/api/health\">Health Check</a></p>\n                    <p><a href=\"/api/info\">System Info</a></p>\n                </div>\n            </div>\n        </body>\n        </html>\n    "

/-- The body of `GET /`: the template literal of app.js lines 13-54, with
its three interpolations (`process.version`,
`process.env.NODE_ENV || 'development'`, `new Date().toISOString()`)
substituted.  The concatenation `hA ++ appTitle ++ hB ++ _ ++ hC ++ hEnvTag
++ _ ++ hD ++ hE ++ _ ++ hF` is exactly the source template. -/
def homeHtml (st : ProcState) : String :=
  hA ++ appTitle ++ hB ++ st.nodeVersion ++ hC ++ hEnvTag ++
    environmentOf st ++ hD ++ hE ++ toISOString st.now ++ hF

/-- Handler of `GET /` (app.js lines 12-55): `res.send` of the HTML
template; Express sends a string body with status 200 and Content-Type
`text/html`. -/
def homeResp (st : ProcState) : Response :=
  { status := 200, contentType := .html, body := .page (homeHtml st) }

/-- Handler of `GET /api/health` (app.js lines 57-63): `res.json` of
`{status, timestamp, uptime}` with status 200. -/
def apiHealth (st : ProcState) : Response :=
  { status := 200, contentType := .json,
    body := .fields
      [("status", .s "healthy"),
       ("timestamp", .s (toISOString st.now)),
       ("uptime", .n (processUptime st))] }

/-- Handler of `GET /api/info` (app.js lines 65-74): `res.json` of
`{status, message, version, node_version, environment, timestamp}` with
status 200. -/
def apiInfo (st : ProcState) : Response :=
  { status := 200, contentType := .json,
    body := .fields
      [("status", .s "success"),
       ("message", .s "Simple Blog App Node.js Application"),
       ("version", .s "1.0.0"),
       ("node_version", .s st.nodeVersion),
       ("environment", .s (environmentOf st)),
       ("timestamp", .s (toISOString st.now))] }

/-- Modelled from the Express framework (no custom fallback exists in
app.js): the default not-found response, a generic 404. -/
def defaultNotFound (m : Method) (p : String) : Response :=
  { status := 404, contentType := .html,
    body := .page ("Cannot " ++ methodName m ++ " " ++ p) }

/-- A response of the static-file middleware (`express.static('public')`,
app.js line 9): the file is served verbatim with an inferred Content-Type. -/
def staticResp (content : String) : Response :=
  { status := 200, contentType := .inferred, body := .page content }

/-- Request dispatch of the app (app.js lines 7-74): the static middleware
runs before the routes (registration order), then the three GET routes in
order, then the framework default.  `pub` is the contents of the `public`
directory (path to file contents; the directory is not part of the
repository source). -/
def handle (pub : String → Option String) (st : ProcState) (req : Request) :
    Response :=
  match req.method with
  | .get =>
    match pub req.path with
    | some content => staticResp content
    | none =>
      if req.path = "/" then homeResp st
      else if req.path = "/api/health" then apiHealth st
      else if req.path = "/api/info" then apiInfo st
      else defaultNotFound .get req.path
  | m => defaultNotFound m req.path

/-- Look up a key in an ordered field list. -/
def lookupField : List (String × JVal) → String → Option JVal
  | [], _ => none
  | (k, v) :: rest, key => if key = k then some v else lookupField rest key

/-- Look up a field of a JSON response body. -/
def getField (r : Response) (k : String) : Option JVal :=
  match r.body with
  | .fields l => lookupField l k
  | .page _ => none

/-- The ordered key list of a JSON response body. -/
def bodyKeys (r : Response) : List String :=
  match r.body with
  | .fields l => l.map Prod.fst
  | .page _ => []

/-- `s` occurs as a contiguous substring of `t`. -/
def Contains (t sub : String) : Prop := ∃ p q, t = p ++ sub ++ q

/-- Does the string start with the character `c`? -/
def startsWithChar (s : String) (c : Char) : Bool :=
  match s.data with
  | [] => false
  | a :: _ => a = c

/-- `digitChar` always yields a decimal digit character. -/
theorem isDigitChar_digitChar (n : Nat) : isDigitChar (digitChar n) = true := by
  have h : n % 10 < 10 := Nat.mod_lt _ (by norm_num)
  unfold digitChar
  set r := n % 10 with hr
  interval_cases r <;> decide

/-- The model `toISOString` always produces a string of the ISO-8601 shape
`YYYY-MM-DDTHH:mm:ss.sssZ`. -/
theorem isIso8601_toISOString (d : DateTime) : isIso8601 (toISOString d) = true := by
  simp [isIso8601, toISOString, isoShape, checkShape, isDigitChar_digitChar]
  refine ⟨by decide, by decide, by decide, by decide, by decide⟩

/-- C10: the `status` field of every `GET /api/health` response is the
constant `"healthy"`, in every process state: the handler consults no
resource, so no other status value is reachable. -/
theorem health_status_always_healthy (st : ProcState) :
    getField (apiHealth st) "status" = some (JVal.s "healthy") := by
  simp [getField, apiHealth, lookupField]

/-- C1: assuming the runtime guarantee that `process.version` starts with
`"v"`, the `GET /api/info` response body is a JSON object exactly equal to
`{status: "success", message: "Simple Blog App Node.js Application",
version: "1.0.0", node_version: <the runtime version, starting with "v">,
environment: <the environment name>, timestamp: <an ISO-8601 string>}`,
with no other keys. -/
theorem api_info_body_exact (st : ProcState)
    (hv : startsWithChar st.nodeVersion (Char.ofNat 118) = true) :
    ∃ nv envName ts,
      apiInfo st =
        { status := 200, contentType := CType.json,
          body := Body.fields
            [("status", JVal.s "success"),
             ("message", JVal.s "Simple Blog App Node.js Application"),
             ("version", JVal.s "1.0.0"),
             ("node_version", JVal.s nv),
             ("environment", JVal.s envName),
             ("timestamp", JVal.s ts)] } ∧
      startsWithChar nv (Char.ofNat 118) = true ∧ envName = environmentOf st ∧
      isIso8601 ts = true :=
  ⟨st.nodeVersion, environmentOf st, toISOString st.now, rfl, hv, rfl,
    isIso8601_toISOString st.now⟩

/-- Witness for C1 at a concrete process state. -/
theorem api_info_body_exact_witness :
    ∃ nv envName ts,
      apiInfo { nodeVersion := "v18.17.0", env := fun _ => none,
                now := ⟨2024, 1, 15, 12, 30, 45, 123⟩,
                nowSec := 5, startSec := 0 } =
        { status := 200, contentType := CType.json,
          body := Body.fields
            [("status", JVal.s "success"),
             ("message", JVal.s "Simple Blog App Node.js Application"),
             ("version", JVal.s "1.0.0"),
             ("node_version", JVal.s nv),
             ("environment", JVal.s envName),
             ("timestamp", JVal.s ts)] } ∧
      startsWithChar nv (Char.ofNat 118) = true ∧
      envName = environmentOf { nodeVersion := "v18.17.0", env := fun _ => none,
                                now := ⟨2024, 1, 15, 12, 30, 45, 123⟩,
                                nowSec := 5, startSec := 0 } ∧
      isIso8601 ts = true :=
  api_info_body_exact _ (by decide)

/-- C2: the `GET /api/health` response has status 200, a JSON Content-Type,
and a body with exactly the keys `status` (value `"healthy"`), `timestamp`
(an ISO-8601 string) and `uptime` (a non-negative number); the hypothesis
is the runtime guarantee that the clock is not before the process start. -/
theorem api_health_response (st : ProcState) (h : st.startSec ≤ st.nowSec) :
    (apiHealth st).status = 200 ∧ (apiHealth st).contentType = CType.json ∧
    ∃ ts u,
      (apiHealth st).body = Body.fields
        [("status", JVal.s "healthy"),
         ("timestamp", JVal.s ts),
         ("uptime", JVal.n u)] ∧
      isIso8601 ts = true ∧ 0 ≤ u :=
  ⟨rfl, rfl, toISOString st.now, processUptime st, rfl,
    isIso8601_toISOString st.now, sub_nonneg.mpr h⟩

/-- Witness for C2 at a concrete process state. -/
theorem api_health_response_witness :
    (0 : ℚ) ≤ 5 ∧
    ((apiHealth { nodeVersion := "v18.17.0", env := fun _ => none,
                  now := ⟨2024, 1, 15, 12, 30, 45, 123⟩,
                  nowSec := 5, startSec := 0 }).status = 200 ∧
     (apiHealth { nodeVersion := "v18.17.0", env := fun _ => none,
                  now := ⟨2024, 1, 15, 12, 30, 45, 123⟩,
                  nowSec := 5, startSec := 0 }).contentType = CType.json ∧
     ∃ ts u,
       (apiHealth { nodeVersion := "v18.17.0", env := fun _ => none,
                    now := ⟨2024, 1, 15, 12, 30, 45, 123⟩,
                    nowSec := 5, startSec := 0 }).body = Body.fields
         [("status", JVal.s "healthy"),
          ("timestamp", JVal.s ts),
          ("uptime", JVal.n u)] ∧
       isIso8601 ts = true ∧ 0 ≤ u) :=
  ⟨by norm_num, api_health_response _ (by norm_num)⟩

/-- C3 counterexample: with `PORT=abc` (set, non-empty, non-numeric) the
`||` default does NOT apply: `PORT` is the string `"abc"`, not `3000`, and
the listener does not bind port 3000 (Node treats a non-numeric string as a
pipe name), refuting "defaults to 3000 whenever PORT is unset or
non-numeric". -/
theorem port_nonnumeric_not_default :
    PORT (fun k => if k = "PORT" then some "abc" else none) ≠ PortVal.num 3000 ∧
    boundPort (PORT (fun k => if k = "PORT" then some "abc" else none)) ≠ some 3000 := by
  constructor <;> decide

/-- C3 (amended): `PORT=8080` makes the listener bind port 8080 (not 3000);
the default 3000 applies exactly when `PORT` is unset or set to the empty
string; any other value, numeric or not, is used as-is. -/
theorem port_selection (e : Env) :
    (e "PORT" = some "8080" → boundPort (PORT e) = some 8080) ∧
    (e "PORT" = none → PORT e = PortVal.num 3000 ∧ boundPort (PORT e) = some 3000) ∧
    (e "PORT" = some "" → PORT e = PortVal.num 3000) ∧
    (∀ s, e "PORT" = some s → s ≠ "" → PORT e = PortVal.str s) := by
  refine ⟨fun h => ?_, fun h => ?_, fun h => ?_, fun s h hs => ?_⟩
  · simp [PORT, h]; decide
  · simp [PORT, h, boundPort]
  · simp [PORT, h]
  · simp [PORT, h, hs]

/-- Witness for C3 at the concrete environments `PORT=8080` and unset. -/
theorem port_selection_witness :
    boundPort (PORT (fun k => if k = "PORT" then some "8080" else none)) = some 8080 ∧
    PORT (fun _ => none) = PortVal.num 3000 :=
  ⟨(port_selection (fun k => if k = "PORT" then some "8080" else none)).1 (by decide),
   ((port_selection (fun _ => none)).2.1 rfl).1⟩

/-- C9: the `||` default applies to every falsy `PORT` value — in
particular the empty string — and any non-empty value, numeric or not, is
used as-is. -/
theorem port_falsy_default (e : Env) :
    (e "PORT" = some "" → PORT e = PortVal.num 3000) ∧
    (e "PORT" = none → PORT e = PortVal.num 3000) ∧
    (∀ s, e "PORT" = some s → s ≠ "" → PORT e = PortVal.str s) := by
  refine ⟨fun h => ?_, fun h => ?_, fun s h hs => ?_⟩
  · simp [PORT, h]
  · simp [PORT, h]
  · simp [PORT, h, hs]

/-- Witness for C9 at the concrete environments `PORT=` (empty) and
`PORT=abc`. -/
theorem port_falsy_default_witness :
    PORT (fun k => if k = "PORT" then some "" else none) = PortVal.num 3000 ∧
    PORT (fun k => if k = "PORT" then some "abc" else none) = PortVal.str "abc" :=
  ⟨(port_falsy_default (fun k => if k = "PORT" then some "" else none)).1 (by decide),
   (port_falsy_default (fun k => if k = "PORT" then some "abc" else none)).2.2 "abc"
     (by decide) (by decide)⟩

/-- C4 counterexample: two process states identical except that `NODE_ENV`
was changed (unset vs `"production"`) after startup give different
`GET /api/info` responses — the handler re-reads `process.env.NODE_ENV` on
every request (app.js line 71), refuting "changing PORT or NODE_ENV after
startup never changes any response". -/
theorem env_reread_counterexample :
    apiInfo { nodeVersion := "v18.17.0", env := fun _ => none,
              now := ⟨2024, 1, 15, 12, 30, 45, 123⟩, nowSec := 5, startSec := 0 } ≠
    apiInfo { nodeVersion := "v18.17.0",
              env := fun k => if k = "NODE_ENV" then some "production" else none,
              now := ⟨2024, 1, 15, 12, 30, 45, 123⟩, nowSec := 5, startSec := 0 } := by
  decide

/-- C4 (amended): responses depend on the environment only through
`NODE_ENV` — two states equal except possibly in other environment
variables (e.g. `PORT`) produce identical responses on all three routes —
while `NODE_ENV` itself is re-read by the handlers on every request. -/
theorem responses_read_only_node_env (st1 st2 : ProcState)
    (hv : st1.nodeVersion = st2.nodeVersion) (hn : st1.now = st2.now)
    (hns : st1.nowSec = st2.nowSec) (hss : st1.startSec = st2.startSec)
    (he : st1.env "NODE_ENV" = st2.env "NODE_ENV") :
    homeResp st1 = homeResp st2 ∧ apiHealth st1 = apiHealth st2 ∧
      apiInfo st1 = apiInfo st2 := by
  refine ⟨?_, ?_, ?_⟩ <;>
    simp [homeResp, homeHtml, apiHealth, apiInfo, environmentOf, processUptime,
      hv, hn, hns, hss, he]

/-- Witness for amended C4: changing `PORT` (unset vs `9999`) after startup
leaves all three responses unchanged. -/
theorem responses_read_only_node_env_witness :
    homeResp { nodeVersion := "v18.17.0", env := fun _ => none,
               now := ⟨2024, 1, 15, 12, 30, 45, 123⟩, nowSec := 5, startSec := 0 } =
      homeResp { nodeVersion := "v18.17.0",
                 env := fun k => if k = "PORT" then some "9999" else none,
                 now := ⟨2024, 1, 15, 12, 30, 45, 123⟩, nowSec := 5, startSec := 0 } ∧
    apiHealth { nodeVersion := "v18.17.0", env := fun _ => none,
                now := ⟨2024, 1, 15, 12, 30, 45, 123⟩, nowSec := 5, startSec := 0 } =
      apiHealth { nodeVersion := "v18.17.0",
                  env := fun k => if k = "PORT" then some "9999" else none,
                  now := ⟨2024, 1, 15, 12, 30, 45, 123⟩, nowSec := 5, startSec := 0 } ∧
    apiInfo { nodeVersion := "v18.17.0", env := fun _ => none,
              now := ⟨2024, 1, 15, 12, 30, 45, 123⟩, nowSec := 5, startSec := 0 } =
      apiInfo { nodeVersion := "v18.17.0",
                env := fun k => if k = "PORT" then some "9999" else none,
                now := ⟨2024, 1, 15, 12, 30, 45, 123⟩, nowSec := 5, startSec := 0 } :=
  responses_read_only_node_env _ _ rfl rfl rfl rfl (by decide)

/-- C5: with `NODE_ENV` unset, `GET /api/info` reports environment
`"development"` and the `GET /` page shows `Environment: development`. -/
theorem default_environment (st : ProcState) (h : st.env "NODE_ENV" = none) :
    getField (apiInfo st) "environment" = some (JVal.s "development") ∧
    Contains (homeHtml st) "<strong>Environment:</strong> development</p>" := by
  have henv : environmentOf st = "development" := by simp [environmentOf, envOr, h]
  constructor
  · simp [getField, apiInfo, lookupField, henv]
  · refine ⟨hA ++ appTitle ++ hB ++ st.nodeVersion ++ hC,
      hE ++ toISOString st.now ++ hF, ?_⟩
    have hsub : ("<strong>Environment:</strong> development</p>" : String) =
        hEnvTag ++ "development" ++ hD := by decide
    rw [hsub]
    simp [homeHtml, henv, String.append_assoc]

/-- Witness for C5 at a concrete process state with `NODE_ENV` unset. -/
theorem default_environment_witness :
    getField (apiInfo { nodeVersion := "v18.17.0", env := fun _ => none,
                        now := ⟨2024, 1, 15, 12, 30, 45, 123⟩,
                        nowSec := 5, startSec := 0 }) "environment" =
      some (JVal.s "development") ∧
    Contains (homeHtml { nodeVersion := "v18.17.0", env := fun _ => none,
                         now := ⟨2024, 1, 15, 12, 30, 45, 123⟩,
                         nowSec := 5, startSec := 0 })
      "<strong>Environment:</strong> development</p>" :=
  default_environment _ rfl

/-- C6: over one process lifetime (same start time) with a non-decreasing
clock, the `uptime` values of two consecutive `GET /api/health` responses
are non-decreasing. -/
theorem health_uptime_monotone (st1 st2 : ProcState)
    (hs : st1.startSec = st2.startSec) (ht : st1.nowSec ≤ st2.nowSec)
    (u1 u2 : ℚ)
    (h1 : getField (apiHealth st1) "uptime" = some (JVal.n u1))
    (h2 : getField (apiHealth st2) "uptime" = some (JVal.n u2)) :
    u1 ≤ u2 := by
  simp [getField, apiHealth, lookupField, processUptime] at h1 h2
  rw [← h1, ← h2, hs]
  exact sub_le_sub_right ht _

/-- Witness for C6 at two concrete states of one process (start 0, clock 5
then 7). -/
theorem health_uptime_monotone_witness : (5 : ℚ) ≤ 7 :=
  health_uptime_monotone
    { nodeVersion := "v18.17.0", env := fun _ => none,
      now := ⟨2024, 1, 15, 12, 30, 45, 123⟩, nowSec := 5, startSec := 0 }
    { nodeVersion := "v18.17.0", env := fun _ => none,
      now := ⟨2024, 1, 15, 12, 30, 47, 123⟩, nowSec := 7, startSec := 0 }
    rfl (by norm_num) 5 7
    (by simp [getField, apiHealth, lookupField, processUptime])
    (by simp [getField, apiHealth, lookupField, processUptime])

/-- C7: `GET /` responds with status 200 and Content-Type `text/html`, and
its body contains the literal substring `"Simple Blog App"` and embeds the
runtime version, the environment name, and the current timestamp. -/
theorem home_response (st : ProcState) :
    (homeResp st).status = 200 ∧ (homeResp st).contentType = CType.html ∧
    Contains (homeHtml st) "Simple Blog App" ∧
    Contains (homeHtml st) st.nodeVersion ∧
    Contains (homeHtml st) (environmentOf st) ∧
    Contains (homeHtml st) (toISOString st.now) := by
  refine ⟨rfl, rfl,
    ⟨hA, hB ++ st.nodeVersion ++ hC ++ hEnvTag ++ environmentOf st ++ hD ++
      hE ++ toISOString st.now ++ hF, ?_⟩,
    ⟨hA ++ appTitle ++ hB, hC ++ hEnvTag ++ environmentOf st ++ hD ++ hE ++
      toISOString st.now ++ hF, ?_⟩,
    ⟨hA ++ appTitle ++ hB ++ st.nodeVersion ++ hC ++ hEnvTag,
      hD ++ hE ++ toISOString st.now ++ hF, ?_⟩,
    ⟨hA ++ appTitle ++ hB ++ st.nodeVersion ++ hC ++ hEnvTag ++
      environmentOf st ++ hD ++ hE, hF, ?_⟩⟩ <;>
  simp [homeHtml, appTitle, String.append_assoc]

/-- C8: a request whose path is none of the three routes and matches no
file of the static directory gets the framework's default not-found
response, a generic 404 (no custom fallback exists in the app). -/
theorem unmatched_path_404 (pub : String → Option String) (st : ProcState)
    (req : Request) (hstatic : pub req.path = none)
    (h1 : req.path ≠ "/") (h2 : req.path ≠ "/api/health")
    (h3 : req.path ≠ "/api/info") :
    handle pub st req = defaultNotFound req.method req.path ∧
    (handle pub st req).status = 404 := by
  rcases req with ⟨m, p⟩
  cases m <;> simp_all [handle, defaultNotFound]

/-- Witness for C8: a concrete GET request to `/nope` with an empty static
directory. -/
theorem unmatched_path_404_witness :
    handle (fun _ => none)
        { nodeVersion := "v18.17.0", env := fun _ => none,
          now := ⟨2024, 1, 15, 12, 30, 45, 123⟩, nowSec := 5, startSec := 0 }
        { method := Method.get, path := "/nope" } =
      defaultNotFound Method.get "/nope" ∧
    (handle (fun _ => none)
        { nodeVersion := "v18.17.0", env := fun _ => none,
          now := ⟨2024, 1, 15, 12, 30, 45, 123⟩, nowSec := 5, startSec := 0 }
        { method := Method.get, path := "/nope" }).status = 404 :=
  unmatched_path_404 _ _ _ rfl (by decide) (by decide) (by decide)

end BlogApp
